import Mathlib

/-!
Verification of the Mission Geometry and Flight-Metrics Engine of the
DJI-Fly-Planner-PRO repository.

The development shallowly embeds the relevant TypeScript source into Lean:

* the area-coverage grid generator `generateGridWaypoints`
  (src/services/geometryService.ts, the version at lines 273-395) is embedded
  over `ℚ` so its runs are executable.  The two external ingredients that the
  source delegates to the turf library and to transcendental float arithmetic
  are carried as explicit parameters:
  - `rotatePt` models `turf.transformRotate` applied pointwise
    (angle, pivot, point); every theorem that needs a concrete rotation either
    uses angle 0 (where the transform is the identity) or instantiates the
    parameter;
  - `distM` models `turf.distance(.., {units: meters})`;
  - the camera half-field-of-view tangents `Math.tan(toRad(fov)/2)` of the
    selected `DRONE_PRESETS` entry are carried in the settings record as the
    rational fields `tanHalfFovH` / `tanHalfFovV` (the catalog angles are fixed
    constants, and only the resulting tangent enters the computation).
* the geodesy primitives (`calculateBearing`, `calculateDistance`,
  `computeDestinationPoint`), the statistics estimator `estimateRouteStats`
  and the sweep-frustum calculator are embedded over `ℝ`, with
  `Math.atan2 y x` modelled as `Complex.arg (x + y i)` and the JavaScript
  remainder `%` (used only with a positive dividend) as `x - n * ⌊x / n⌋`.

Data records mirror src/types.ts, parameterized by the number type.
-/

/-- Geographic point {lat, lng} as used through the drawing pipeline. -/
structure GeoPt (α : Type) where
  lat : α
  lng : α
deriving DecidableEq, Repr

/-- A turf-style coordinate pair in [lng, lat] order. -/
abbrev Pt := ℚ × ℚ

/-- FlightSettings.mappingPattern ('parallel' | 'crosshatch'), src/types.ts:59. -/
inductive MappingPattern
  | parallel
  | crosshatch
deriving DecidableEq, Repr

/-- The camera data of the resolved `DRONE_PRESETS` entry that the grid
generator consumes: `Math.tan(toRad(fovH)/2)` and `Math.tan(toRad(fovV)/2)`. -/
structure DronePreset (α : Type) where
  tanHalfFovH : α
  tanHalfFovV : α
deriving DecidableEq, Repr

/-- FlightSettings (src/types.ts), restricted to the fields the embedded
functions read.  `drone` is the result of the
`DRONE_PRESETS.find(d => d.model === settings.selectedDroneModel)` lookup. -/
structure FlightSettings (α : Type) where
  altitude : α
  speedKmh : α
  finishAction : α
  mappingPattern : MappingPattern
  mappingOverlap : α
  mappingOverlapH : α
  drone : DronePreset α
deriving DecidableEq, Repr

/-- Waypoint record, src/types.ts lines 5-27. -/
structure Waypoint (α : Type) where
  id : α
  latitude : α
  longitude : α
  altitude : α
  heading : α
  curveSize : α
  rotationDir : α
  gimbalMode : α
  gimbalPitch : α
  actionType1 : α
  actionParam1 : α
  actionType2 : α
  actionParam2 : α
  altitudeMode : α
  speed : α
  poiLat : α
  poiLon : α
  poiAlt : α
  poiAltMode : α
  photoTimeInterval : α
  photoDistInterval : α
deriving DecidableEq, Repr

/-- HomePoint record, src/types.ts lines 29-32. -/
structure HomePoint (α : Type) where
  lat : α
  lng : α
deriving DecidableEq, Repr

/-- Route record, src/types.ts lines 34-43. -/
structure Route (α : Type) where
  id : String
  name : String
  waypoints : List (Waypoint α)
  color : String
  locked : Bool
  homePoint : HomePoint α
  gridRotation : Option α
  originalPolygon : Option (List (GeoPt α))
deriving DecidableEq, Repr

/-! ## The coverage grid generator (geometryService.ts lines 273-395), over ℚ -/

/-- geometryService.ts lines 282-285: close the ring when the first vertex
differs from the last. -/
def closeRing (coords : List Pt) : List Pt :=
  match coords with
  | [] => []
  | c :: _ =>
    match coords.getLast? with
    | none => coords
    | some l => if c.1 ≠ l.1 ∨ c.2 ≠ l.2 then coords ++ [c] else coords

/-- `turf.centroid`: arithmetic mean of the ring vertices (the closing wrap
coordinate excluded).  It is only ever used as the rotation pivot, and no
claim depends on its value. -/
def centroidOf (ring : List Pt) : Pt :=
  let core := ring.dropLast
  let n : ℚ := core.length
  if n = 0 then (0, 0)
  else (core.foldl (fun a p => a + p.1) 0 / n, core.foldl (fun a p => a + p.2) 0 / n)

/-- `turf.bbox` output [minX, minY, maxX, maxY]. -/
structure BBox where
  minX : ℚ
  minY : ℚ
  maxX : ℚ
  maxY : ℚ
deriving DecidableEq, Repr

/-- `turf.bbox`: smallest axis-aligned box containing every coordinate. -/
def bboxOf : List Pt → BBox
  | [] => ⟨0, 0, 0, 0⟩
  | p :: ps =>
    ps.foldl (fun b q => ⟨min b.minX q.1, min b.minY q.2, max b.maxX q.1, max b.maxY q.2⟩)
      ⟨p.1, p.2, p.1, p.2⟩

/-- Intersection of one polygon edge `p`-`q` with the horizontal scan segment
at height `c` spanning x ∈ [xlo, xhi] (the ingredient of
`turf.lineIntersect(lineString, rotatedPoly)`).  Edges parallel to the scan
line yield no intersection point. -/
def edgeScanIntersection (xlo xhi c : ℚ) (p q : Pt) : Option Pt :=
  if p.2 = q.2 then none
  else
    let t := (c - p.2) / (q.2 - p.2)
    if 0 ≤ t ∧ t ≤ 1 then
      let x := p.1 + t * (q.1 - p.1)
      if xlo ≤ x ∧ x ≤ xhi then some (x, c) else none
    else none

/-- `turf.lineIntersect` of the scan line with the polygon: collect the edge
intersections in ring order. -/
def scanIntersections (ring : List Pt) (xlo xhi c : ℚ) : List Pt :=
  (ring.zip ring.tail).filterMap fun e => edgeScanIntersection xlo xhi c e.1 e.2

/-- `points.sort((a, b) => a[0] - b[0])`: stable sort by the x coordinate. -/
def sortByX (pts : List Pt) : List Pt :=
  pts.insertionSort fun a b => a.1 ≤ b.1

/-- geometryService.ts lines 354-370: one covered span from `pStart` to
`pEnd`, densified every `ps` meters when the span measures longer than `ps`
(`ld` is `turf.distance(pStart, pEnd, {units: meters})`). -/
def denseSpan (distM : Pt → Pt → ℚ) (ps c : ℚ) (pStart pEnd : Pt) : List Pt :=
  let ld := distM pStart pEnd
  let dens : List Pt :=
    if 0 < ps ∧ ps < ld then
      (List.range (Int.toNat ⌊ld / ps⌋)).map fun k =>
        let ratio := ((k : ℚ) + 1) * ps / ld
        (pStart.1 + (pEnd.1 - pStart.1) * ratio, c)
    else []
  pStart :: (dens ++ [pEnd])

/-- geometryService.ts lines 350-378: pair the sorted intersections two at a
time (even-odd rule) into spans; a reversed lane reverses every span. -/
def pairSpans (distM : Pt → Pt → ℚ) (ps c : ℚ) (rev : Bool) : List Pt → List Pt
  | a :: b :: rest =>
    (let seg := denseSpan distM ps c a b
     if rev then seg.reverse else seg) ++ pairSpans distM ps c rev rest
  | _ => []

/-- geometryService.ts lines 334-383: the scan-line while loop.  The source
runs `while (currentY < bbox[3] && lineIndex < maxLines)` with
`maxLines = 500`; here `fuel = maxLines - lineIndex`. -/
def scanLoop (ring : List Pt) (xlo xhi maxY d ps : ℚ) (distM : Pt → Pt → ℚ) :
    ℕ → ℚ → ℕ → List Pt
  | 0, _, _ => []
  | fuel + 1, curY, idx =>
    if curY < maxY then
      (let pts := scanIntersections ring xlo xhi curY
       if 2 ≤ pts.length then
         pairSpans distM ps curY (idx % 2 ≠ 0) (sortByX pts)
       else []) ++ scanLoop ring xlo xhi maxY d ps distM fuel (curY + d) (idx + 1)
    else []

/-- geometryService.ts lines 273-395, `generateGridWaypoints`.
`rotatePt angle pivot` models `turf.transformRotate` applied to one
coordinate; `distM` models `turf.distance` in meters. -/
def generateGridWaypoints (rotatePt : ℚ → Pt → Pt → Pt) (distM : Pt → Pt → ℚ)
    (polygonCoords : List (GeoPt ℚ)) (settings : FlightSettings ℚ)
    (rotationAngle : ℚ) : List (GeoPt ℚ) :=
  if polygonCoords.length < 3 then polygonCoords
  else
    let coords := closeRing (polygonCoords.map fun p => (p.lng, p.lat))
    let centroid := centroidOf coords
    let rotatedPoly := coords.map (rotatePt (-rotationAngle) centroid)
    let bbox := bboxOf rotatedPoly
    let altitude := settings.altitude
    let footprintWidth := 2 * altitude * settings.drone.tanHalfFovH
    let footprintHeight := 2 * altitude * settings.drone.tanHalfFovV
    let laneSpacingMeters := footprintWidth * (1 - settings.mappingOverlapH / 100)
    let photoSpacingMeters := footprintHeight * (1 - settings.mappingOverlap / 100)
    let laneSpacingDeg := laneSpacingMeters / 111320
    if laneSpacingDeg ≤ 1 / 1000000 then polygonCoords
    else
      let gridPoints := scanLoop rotatedPoly (bbox.minX - 1/20) (bbox.maxX + 1/20)
        bbox.maxY laneSpacingDeg photoSpacingMeters distM 500
        (bbox.minY + laneSpacingDeg / 2) 0
      if gridPoints = [] then polygonCoords.map fun p => GeoPt.mk p.lat p.lng
      else (gridPoints.map (rotatePt rotationAngle centroid)).map fun p => GeoPt.mk p.2 p.1

/-! ## Rectangle scan geometry: closed forms used to settle the grid claims -/

/-- The derived lane spacing, in scan-frame degrees, that the generator
computes from the settings (footprintWidth × (1 − overlapH/100) / 111320). -/
def laneSpacingDegOf (s : FlightSettings ℚ) : ℚ :=
  2 * s.altitude * s.drone.tanHalfFovH * (1 - s.mappingOverlapH / 100) / 111320

/-- The derived photo spacing in meters (footprintHeight × (1 − overlap/100)). -/
def photoSpacingOf (s : FlightSettings ℚ) : ℚ :=
  2 * s.altitude * s.drone.tanHalfFovV * (1 - s.mappingOverlap / 100)

/-- Axis-aligned rectangle polygon input, counter-clockwise from the
south-west corner: lng ∈ [x0, x1], lat ∈ [y0, y1]. -/
def rectPoly (x0 x1 y0 y1 : ℚ) : List (GeoPt ℚ) :=
  [⟨y0, x0⟩, ⟨y0, x1⟩, ⟨y1, x1⟩, ⟨y1, x0⟩]

/-- The closed ring the generator builds from `rectPoly`. -/
def rectRing (x0 x1 y0 y1 : ℚ) : List Pt :=
  [(x0, y0), (x1, y0), (x1, y1), (x0, y1), (x0, y0)]

/-- The k-th scan lane of a rectangle: the span from `(x0, c)` to `(x1, c)` at
height `c = y0 + d/2 + k·d`, densified, and reversed on odd lanes. -/
def rectLane (distM : Pt → Pt → ℚ) (ps x0 x1 y0 d : ℚ) (k : ℕ) : List Pt :=
  let c := y0 + d / 2 + k * d
  let seg := denseSpan distM ps c (x0, c) (x1, c)
  if k % 2 ≠ 0 then seg.reverse else seg

/-- The number of scan lanes the generator emits on a rectangle of height `h`
with lane spacing `d`: the count of k ≥ 0 with d/2 + k·d < h. -/
def rectLaneCount (h d : ℚ) : ℕ := (⌈h / d - 1 / 2⌉).toNat

/-- The full boustrophedon grid over a rectangle, as returned to the caller. -/
def rectGrid (distM : Pt → Pt → ℚ) (ps x0 x1 y0 d : ℚ) (n : ℕ) : List (GeoPt ℚ) :=
  ((List.range n).flatMap (rectLane distM ps x0 x1 y0 d)).map fun p => GeoPt.mk p.2 p.1

lemma rectLaneCount_lt_iff (h d : ℚ) (hd : 0 < d) (k : ℕ) :
    k < rectLaneCount h d ↔ d / 2 + (k : ℚ) * d < h := by
  rw [rectLaneCount, Int.lt_toNat, Int.lt_ceil]
  rw [lt_sub_iff_add_lt, lt_div_iff₀ hd]
  push_cast
  constructor <;> intro hlt <;> nlinarith

lemma closeRing_rect (x0 x1 y0 y1 : ℚ) (hy : y0 ≠ y1) :
    closeRing [(x0, y0), (x1, y0), (x1, y1), (x0, y1)] = rectRing x0 x1 y0 y1 := by
  have hlast : ([(x0, y0), (x1, y0), (x1, y1), (x0, y1)] : List Pt).getLast? = some (x0, y1) := rfl
  simp only [closeRing, hlast, rectRing]
  rw [if_pos (Or.inr hy)]
  rfl

lemma bboxOf_rectRing (x0 x1 y0 y1 : ℚ) (hx : x0 ≤ x1) (hy : y0 ≤ y1) :
    bboxOf (rectRing x0 x1 y0 y1) = ⟨x0, y0, x1, y1⟩ := by
  simp only [rectRing, bboxOf, List.foldl]
  have h1 : min x0 x1 = x0 := min_eq_left hx
  have h2 : max x0 x1 = x1 := max_eq_right hx
  have h3 : min y0 y1 = y0 := min_eq_left hy
  have h4 : max y0 y1 = y1 := max_eq_right hy
  simp [h1, h2, h3, h4, min_self, max_self]
  exact ⟨hx, hy⟩

lemma edgeScan_horizontal (xlo xhi c x0 x1 y : ℚ) :
    edgeScanIntersection xlo xhi c (x0, y) (x1, y) = none := by
  simp [edgeScanIntersection]

lemma edgeScan_vertical (xlo xhi c x ya yb : ℚ) (hy : ya ≠ yb)
    (h1 : 0 ≤ (c - ya) / (yb - ya)) (h2 : (c - ya) / (yb - ya) ≤ 1)
    (hxl : xlo ≤ x) (hxr : x ≤ xhi) :
    edgeScanIntersection xlo xhi c (x, ya) (x, yb) = some (x, c) := by
  simp only [edgeScanIntersection]
  rw [if_neg hy, if_pos ⟨h1, h2⟩]
  have hx : x + (c - ya) / (yb - ya) * (x - x) = x := by ring
  rw [if_pos (by constructor <;> [rw [hx]; rw [hx]] <;> assumption)]
  simp [hx]

/-- On the rectangle ring, a scan line strictly between the bottom and top
edges meets exactly the right edge and then the left edge. -/
lemma scanIntersections_rect (x0 x1 y0 y1 c : ℚ) (hx : x0 < x1)
    (hc0 : y0 < c) (hc1 : c < y1) :
    scanIntersections (rectRing x0 x1 y0 y1) (x0 - 1/20) (x1 + 1/20) c
      = [(x1, c), (x0, c)] := by
  have hy : y0 ≠ y1 := by linarith
  have hyd : (0 : ℚ) < y1 - y0 := by linarith
  have e2 : edgeScanIntersection (x0 - 1/20) (x1 + 1/20) c (x1, y0) (x1, y1)
      = some (x1, c) := by
    apply edgeScan_vertical _ _ _ _ _ _ hy
    · apply div_nonneg (by linarith) (by linarith)
    · rw [div_le_one hyd]; linarith
    · linarith
    · linarith
  have ht : (c - y1) / (y0 - y1) = (y1 - c) / (y1 - y0) := by
    rw [div_eq_div_iff (by linarith) (by linarith)]; ring
  have e4 : edgeScanIntersection (x0 - 1/20) (x1 + 1/20) c (x0, y1) (x0, y0)
      = some (x0, c) := by
    apply edgeScan_vertical _ _ _ _ _ _ (Ne.symm hy)
    · rw [ht]; exact div_nonneg (by linarith) (by linarith)
    · rw [ht, div_le_one hyd]; linarith
    · linarith
    · linarith
  simp only [rectRing, scanIntersections, List.zip, List.zipWith, List.filterMap]
  rw [edgeScan_horizontal, e2, edgeScan_horizontal, e4]

lemma sortByX_pair (x0 x1 c : ℚ) (hx : x0 < x1) :
    sortByX [(x1, c), (x0, c)] = [(x0, c), (x1, c)] := by
  simp [sortByX, List.insertionSort, List.orderedInsert, not_le.2 hx]

lemma pairSpans_pair (distM : Pt → Pt → ℚ) (ps c : ℚ) (rev : Bool) (a b : Pt) :
    pairSpans distM ps c rev [a, b]
      = (if rev then (denseSpan distM ps c a b).reverse else denseSpan distM ps c a b) := by
  simp [pairSpans]

/-- The body of one productive scan-line iteration on the rectangle equals the
k-th closed-form lane. -/
lemma scanBody_rect (distM : Pt → Pt → ℚ) (ps x0 x1 y0 y1 d : ℚ) (k : ℕ)
    (hx : x0 < x1) (hc0 : y0 < y0 + d / 2 + k * d) (hc1 : y0 + d / 2 + k * d < y1) :
    (let pts := scanIntersections (rectRing x0 x1 y0 y1) (x0 - 1/20) (x1 + 1/20)
        (y0 + d / 2 + k * d)
     if 2 ≤ pts.length then
       pairSpans distM ps (y0 + d / 2 + k * d) (k % 2 ≠ 0) (sortByX pts)
     else []) = rectLane distM ps x0 x1 y0 d k := by
  simp only [scanIntersections_rect x0 x1 y0 y1 _ hx hc0 hc1]
  rw [sortByX_pair x0 x1 _ hx]
  simp only [List.length_cons, List.length_nil, Nat.reduceAdd, le_refl, if_pos]
  rw [pairSpans_pair]
  simp [rectLane]

/-- The scan-line loop on a rectangle produces exactly the lanes
`k, k+1, …, rectLaneCount − 1`, provided the fuel suffices. -/
lemma scanLoop_rect (distM : Pt → Pt → ℚ) (ps x0 x1 y0 h d : ℚ)
    (hx : x0 < x1) (hd : 0 < d) :
    ∀ (fuel k : ℕ), rectLaneCount h d ≤ k + fuel →
      scanLoop (rectRing x0 x1 y0 (y0 + h)) (x0 - 1/20) (x1 + 1/20) (y0 + h) d ps distM
          fuel (y0 + d / 2 + k * d) k
        = (List.range' k (rectLaneCount h d - k)).flatMap (rectLane distM ps x0 x1 y0 d) := by
  intro fuel
  induction fuel with
  | zero =>
    intro k hk
    rw [Nat.sub_eq_zero_of_le (by omega)]
    simp [scanLoop]
  | succ fuel ih =>
    intro k hk
    by_cases hkN : k < rectLaneCount h d
    · have hclt : d / 2 + (k : ℚ) * d < h := (rectLaneCount_lt_iff h d hd k).mp hkN
      have hc1 : y0 + d / 2 + (k : ℚ) * d < y0 + h := by linarith
      have hc0 : y0 < y0 + d / 2 + (k : ℚ) * d := by
        have : (0 : ℚ) ≤ (k : ℚ) * d := mul_nonneg (Nat.cast_nonneg k) hd.le
        linarith
      rw [scanLoop, if_pos hc1]
      rw [scanBody_rect distM ps x0 x1 y0 (y0 + h) d k hx hc0 hc1]
      have hstep : y0 + d / 2 + (k : ℚ) * d + d = y0 + d / 2 + ((k + 1 : ℕ) : ℚ) * d := by
        push_cast; ring
      rw [hstep, ih (k + 1) (by omega)]
      have hrange : List.range' k (rectLaneCount h d - k)
          = k :: List.range' (k + 1) (rectLaneCount h d - (k + 1)) := by
        have : rectLaneCount h d - k = (rectLaneCount h d - (k + 1)) + 1 := by omega
        rw [this, List.range'_succ]
      rw [hrange, List.flatMap_cons]
    · have hge : h ≤ d / 2 + (k : ℚ) * d := by
        by_contra hlt
        exact hkN ((rectLaneCount_lt_iff h d hd k).mpr (not_le.mp hlt))
      rw [scanLoop, if_neg (by linarith)]
      rw [Nat.sub_eq_zero_of_le (by omega)]
      simp

lemma denseSpan_ne_nil (distM : Pt → Pt → ℚ) (ps c : ℚ) (a b : Pt) :
    denseSpan distM ps c a b ≠ [] := by
  simp [denseSpan]

lemma rectLane_zero_ne_nil (distM : Pt → Pt → ℚ) (ps x0 x1 y0 d : ℚ) :
    rectLane distM ps x0 x1 y0 d 0 ≠ [] := by
  simp only [rectLane]
  norm_num
  apply denseSpan_ne_nil

lemma map_rot_id (rotatePt : ℚ → Pt → Pt → Pt) (piv : Pt)
    (hrot : ∀ piv p, rotatePt 0 piv p = p) (l : List Pt) :
    l.map (rotatePt 0 piv) = l := by
  induction l with
  | nil => rfl
  | cons a t ih => simp [hrot, ih]

/-- Grid generation at rotation 0 on an axis-aligned rectangle: the output is
exactly the boustrophedon closed form with `rectLaneCount h d` lanes. -/
theorem generateGrid_rect_closedForm (rotatePt : ℚ → Pt → Pt → Pt)
    (distM : Pt → Pt → ℚ) (s : FlightSettings ℚ) (x0 x1 y0 h : ℚ)
    (hrot : ∀ piv p, rotatePt 0 piv p = p)
    (hx : x0 < x1) (hh : 0 < h)
    (hd : 1/1000000 < laneSpacingDegOf s)
    (h1 : laneSpacingDegOf s / 2 < h)
    (hcap : rectLaneCount h (laneSpacingDegOf s) ≤ 500) :
    generateGridWaypoints rotatePt distM (rectPoly x0 x1 y0 (y0 + h)) s 0
      = rectGrid distM (photoSpacingOf s) x0 x1 y0 (laneSpacingDegOf s)
          (rectLaneCount h (laneSpacingDegOf s)) := by
  have hd0 : (0 : ℚ) < laneSpacingDegOf s := by linarith
  have hy : y0 ≠ y0 + h := by intro hcon; linarith
  unfold generateGridWaypoints
  rw [if_neg (by simp [rectPoly])]
  have hmap : (rectPoly x0 x1 y0 (y0 + h)).map (fun p => (p.lng, p.lat))
      = [(x0, y0), (x1, y0), (x1, y0 + h), (x0, y0 + h)] := by
    simp [rectPoly]
  simp only [hmap, closeRing_rect x0 x1 y0 (y0 + h) hy, neg_zero,
    map_rot_id rotatePt _ hrot,
    bboxOf_rectRing x0 x1 y0 (y0 + h) hx.le (by linarith)]
  rw [show (2 * s.altitude * s.drone.tanHalfFovH * (1 - s.mappingOverlapH / 100) / 111320 : ℚ)
      = laneSpacingDegOf s from rfl]
  rw [show (2 * s.altitude * s.drone.tanHalfFovV * (1 - s.mappingOverlap / 100) : ℚ)
      = photoSpacingOf s from rfl]
  rw [if_neg (not_le.2 hd)]
  have hstart : y0 + laneSpacingDegOf s / 2
      = y0 + laneSpacingDegOf s / 2 + ((0 : ℕ) : ℚ) * laneSpacingDegOf s := by
    push_cast; ring
  rw [hstart, scanLoop_rect distM _ x0 x1 y0 h _ hx hd0 500 0 (by omega)]
  rw [Nat.sub_zero, show List.range' 0 (rectLaneCount h (laneSpacingDegOf s))
      = List.range (rectLaneCount h (laneSpacingDegOf s)) from (List.range_eq_range' _).symm]
  have hN : 0 < rectLaneCount h (laneSpacingDegOf s) := by
    have := (rectLaneCount_lt_iff h (laneSpacingDegOf s) hd0 0).mpr (by push_cast; linarith)
    omega
  have hnil : (List.range (rectLaneCount h (laneSpacingDegOf s))).flatMap
      (rectLane distM (photoSpacingOf s) x0 x1 y0 (laneSpacingDegOf s)) ≠ [] := by
    obtain ⟨m, hm⟩ : ∃ m, rectLaneCount h (laneSpacingDegOf s) = m + 1 :=
      ⟨rectLaneCount h (laneSpacingDegOf s) - 1, by omega⟩
    rw [hm, List.range_succ_eq_map, List.flatMap_cons]
    intro hcon
    exact rectLane_zero_ne_nil distM (photoSpacingOf s) x0 x1 y0 (laneSpacingDegOf s)
      (List.append_eq_nil.mp hcon).1
  rw [if_neg (by exact_mod_cast hnil)]
  rfl

/-! ## Concrete instances used by witnesses and counterexamples -/

/-- The lane spacing in meters that the generator derives from the settings. -/
def laneSpacingMetersOf (s : FlightSettings ℚ) : ℚ :=
  2 * s.altitude * s.drone.tanHalfFovH * (1 - s.mappingOverlapH / 100)

/-- Identity instance for the `turf.transformRotate` parameter (valid at
angle 0, where the transform leaves every coordinate fixed). -/
def rotIdQ : ℚ → Pt → Pt → Pt := fun _ _ p => p

/-- Planar rotation about the pivot for the angles 0 and ±90 (the only ones a
concrete counterexample run needs); other angles are left fixed. -/
def rotQ90 : ℚ → Pt → Pt → Pt := fun th piv p =>
  if th = 0 then p
  else if th = 90 then (piv.1 + (p.2 - piv.2), piv.2 - (p.1 - piv.1))
  else if th = -90 then (piv.1 - (p.2 - piv.2), piv.2 + (p.1 - piv.1))
  else p

/-- Degenerate span-length instance for the `turf.distance` parameter
(turns photo densification off). -/
def distZero : Pt → Pt → ℚ := fun _ _ => 0

/-- Sample settings: altitude 111320 m, both half-FOV tangents 1/2, no
overlap, so the derived lane spacing is exactly 1 scan-frame degree. -/
def sampleSettings : FlightSettings ℚ :=
  ⟨111320, 18, 0, MappingPattern.parallel, 0, 0, ⟨1/2, 1/2⟩⟩

/-- `sampleSettings` with the cross-hatch pattern selected. -/
def sampleSettingsCross : FlightSettings ℚ :=
  ⟨111320, 18, 0, MappingPattern.crosshatch, 0, 0, ⟨1/2, 1/2⟩⟩

lemma laneSpacingDegOf_sample : laneSpacingDegOf sampleSettings = 1 := by
  norm_num [laneSpacingDegOf, sampleSettings]

lemma rectLaneCount_sample2 : rectLaneCount 2 1 = 2 := by
  have h2 : (⌈(2 : ℚ) / 1 - 1 / 2⌉ : ℤ) = 2 := by
    rw [Int.ceil_eq_iff] ; norm_num
  rw [rectLaneCount, h2]
  rfl

/-- C1 (as amended).  At rotation angle 0 on an axis-aligned rectangle of
width `x1 − x0` and height `h` (scan-frame degrees; the generator converts
the meter-valued lane spacing with the same fixed 111320 m/degree factor, so
the height/spacing ratio is unchanged), the generated path is exactly the
boustrophedon closed form `rectGrid`: `(⌈h/L − 1/2⌉).toNat` scan lanes — not
`⌈h/L⌉` as the original claim stated; the two agree exactly when `h/L` has
zero or large (> 1/2) fractional part — each lane spanning the rectangle's
full width from `x0` to `x1` at height `minY + L/2 + k·L`, densified at the
photo spacing, with the point order of successive lanes alternating
left-to-right then right-to-left (`rectLane` reverses odd `k`).  Requires the
spacing guard to pass, at least one lane to fit (`L/2 < h`), and the
500-scan-line safety cap not to be reached. -/
theorem C1_rect_grid_boustrophedon (rotatePt : ℚ → Pt → Pt → Pt)
    (distM : Pt → Pt → ℚ) (s : FlightSettings ℚ) (x0 x1 y0 h : ℚ)
    (hrot : ∀ piv p, rotatePt 0 piv p = p)
    (hx : x0 < x1) (hh : 0 < h)
    (hd : 1/1000000 < laneSpacingDegOf s)
    (h1 : laneSpacingDegOf s / 2 < h)
    (hcap : (⌈h / laneSpacingDegOf s - 1/2⌉).toNat ≤ 500) :
    generateGridWaypoints rotatePt distM (rectPoly x0 x1 y0 (y0 + h)) s 0
      = rectGrid distM (photoSpacingOf s) x0 x1 y0 (laneSpacingDegOf s)
          ((⌈h / laneSpacingDegOf s - 1/2⌉).toNat) :=
  generateGrid_rect_closedForm rotatePt distM s x0 x1 y0 h hrot hx hh hd h1 hcap

/-- Witness for C1: the rectangle [0,1] × [0,2] under `sampleSettings`
(lane spacing 1) satisfies every hypothesis, and the theorem applies. -/
theorem C1_rect_grid_boustrophedon_witness :
    (∀ piv p, rotIdQ 0 piv p = p) ∧ (0 : ℚ) < 1 ∧ (0 : ℚ) < 2
      ∧ (1 : ℚ)/1000000 < laneSpacingDegOf sampleSettings
      ∧ laneSpacingDegOf sampleSettings / 2 < 2
      ∧ (⌈(2 : ℚ) / laneSpacingDegOf sampleSettings - 1/2⌉).toNat ≤ 500
      ∧ generateGridWaypoints rotIdQ distZero (rectPoly 0 1 0 (0 + 2)) sampleSettings 0
          = rectGrid distZero (photoSpacingOf sampleSettings) 0 1 0
              (laneSpacingDegOf sampleSettings)
              ((⌈(2 : ℚ) / laneSpacingDegOf sampleSettings - 1/2⌉).toNat) := by
  have hd := laneSpacingDegOf_sample
  have hcap : (⌈(2 : ℚ) / laneSpacingDegOf sampleSettings - 1/2⌉).toNat ≤ 500 := by
    rw [hd]
    have := rectLaneCount_sample2
    rw [rectLaneCount] at this
    omega
  refine ⟨fun piv p => rfl, by norm_num, by norm_num, by rw [hd]; norm_num,
    by rw [hd]; norm_num, hcap, ?_⟩
  exact C1_rect_grid_boustrophedon rotIdQ distZero sampleSettings 0 1 0 2
    (fun piv p => rfl) (by norm_num) (by norm_num) (by rw [hd]; norm_num)
    (by rw [hd]; norm_num) hcap

/-- Counterexample to C1 as stated: on the rectangle lng ∈ [0,1],
lat ∈ [0, 7/3] with lane spacing 1 (so H/L = 7/3 in meters as well, since the
generator converts meters to scan degrees by the fixed 111320 factor), the
generator emits the four listed points: two lanes (two distinct scan
heights), while the claim demands `⌈H/L⌉ = 3` lanes. -/
theorem C1_counterexample :
    generateGridWaypoints rotIdQ distZero (rectPoly 0 1 0 (7/3)) sampleSettings 0
        = [⟨1/2, 0⟩, ⟨1/2, 1⟩, ⟨3/2, 1⟩, ⟨3/2, 0⟩]
      ∧ ((generateGridWaypoints rotIdQ distZero (rectPoly 0 1 0 (7/3))
          sampleSettings 0).map GeoPt.lat).dedup = [1/2, 3/2]
      ∧ (⌈(7 : ℚ)/3⌉ : ℤ) = 3 := by
  have hd := laneSpacingDegOf_sample
  have hN : (⌈(7 : ℚ)/3 / laneSpacingDegOf sampleSettings - 1/2⌉).toNat = 2 := by
    rw [hd]
    have h2 : (⌈(7 : ℚ)/3 / 1 - 1/2⌉ : ℤ) = 2 := by
      rw [Int.ceil_eq_iff] ; norm_num
    rw [h2] ; rfl
  have hmain := generateGrid_rect_closedForm rotIdQ distZero sampleSettings 0 1 0 (7/3)
    (fun piv p => rfl) (by norm_num) (by norm_num) (by rw [hd]; norm_num)
    (by rw [hd]; norm_num) (by rw [rectLaneCount, hN]; omega)
  rw [show ((0 : ℚ) + 7/3) = 7/3 by norm_num, rectLaneCount, hN, hd] at hmain
  have heval : rectGrid distZero (photoSpacingOf sampleSettings) 0 1 0 1 2
      = [⟨1/2, 0⟩, ⟨1/2, 1⟩, ⟨3/2, 1⟩, ⟨3/2, 0⟩] := by
    norm_num [rectGrid, rectLane, denseSpan, distZero, photoSpacingOf, sampleSettings,
      List.range_succ, List.flatMap_cons, List.flatMap_nil]
  rw [hmain, heval]
  refine ⟨rfl, ?_, by rw [Int.ceil_eq_iff] ; norm_num⟩
  norm_num [List.dedup_cons_of_mem, List.dedup_cons_of_not_mem]

/-- C2: if the polygon has fewer than 3 vertices, or the computed lane
spacing is at most 0.1 m (so at most 1/1113200 scan degrees, below the
10⁻⁶-degree guard), `generateGridWaypoints` returns the input vertex list
unchanged — a defined fallback, not an error. -/
theorem C2_degenerate_fallback (rotatePt : ℚ → Pt → Pt → Pt)
    (distM : Pt → Pt → ℚ) (polygonCoords : List (GeoPt ℚ))
    (s : FlightSettings ℚ) (angle : ℚ)
    (hcase : polygonCoords.length < 3 ∨ laneSpacingMetersOf s ≤ 1/10) :
    generateGridWaypoints rotatePt distM polygonCoords s angle = polygonCoords := by
  unfold generateGridWaypoints
  by_cases hlen : polygonCoords.length < 3
  · rw [if_pos hlen]
  · rw [if_neg hlen]
    rcases hcase with hcase | hcase
    · exact absurd hcase hlen
    · have hguard : laneSpacingMetersOf s / 111320 ≤ 1/1000000 := by
        calc laneSpacingMetersOf s / 111320 ≤ (1/10) / 111320 := by
              apply div_le_div_of_nonneg_right hcase (by norm_num)
          _ ≤ 1/1000000 := by norm_num
      dsimp only
      rw [show (2 * s.altitude * s.drone.tanHalfFovH * (1 - s.mappingOverlapH / 100) / 111320 : ℚ)
          = laneSpacingMetersOf s / 111320 from rfl]
      rw [if_pos hguard]

/-- Witness for C2: a two-vertex polygon is returned unchanged. -/
theorem C2_degenerate_fallback_witness :
    (([⟨0, 0⟩, ⟨1, 1⟩] : List (GeoPt ℚ)).length < 3
        ∨ laneSpacingMetersOf sampleSettings ≤ 1/10)
      ∧ generateGridWaypoints rotIdQ distZero [⟨0, 0⟩, ⟨1, 1⟩] sampleSettings 0
          = [⟨0, 0⟩, ⟨1, 1⟩] := by
  refine ⟨Or.inl (by norm_num), ?_⟩
  exact C2_degenerate_fallback rotIdQ distZero _ sampleSettings 0 (Or.inl (by norm_num))

/-! ## Grid rotation handler (RouteManager.tsx lines 637-660) -/

/-- Zero-filled waypoint, standing for the fields JavaScript would leave
`undefined` when `route.waypoints[0]` is spread on an empty list. -/
def defaultWaypoint : Waypoint ℚ :=
  ⟨0, 0, 0, 0, 0, 0, 0, 0, 0, 0, 0, 0, 0, 0, 0, 0, 0, 0, 0, 0, 0⟩

/-- RouteManager.tsx `handleRotationUpdate`, restricted to the route whose id
matched (the surrounding `routes.map` is list plumbing).  The handler always
re-derives the grid from `route.originalPolygon` — never from the previously
generated waypoints — and treats the angle as absolute. -/
def rotateRoute (rotatePt : ℚ → Pt → Pt → Pt) (distM : Pt → Pt → ℚ)
    (settings : FlightSettings ℚ) (angle : ℚ) (route : Route ℚ) : Route ℚ :=
  if route.locked then route
  else
    match route.originalPolygon with
    | none => { route with gridRotation := some angle }
    | some basePolygon =>
      let newGridCoords := generateGridWaypoints rotatePt distM basePolygon settings angle
      let newWps := newGridCoords.enum.map fun ic =>
        { route.waypoints.headD defaultWaypoint with
            id := (ic.1 : ℚ) + 1
            latitude := ic.2.lat
            longitude := ic.2.lng
            actionType1 := 1
            gimbalPitch := -90
            altitude := settings.altitude }
      { route with waypoints := newWps, gridRotation := some angle }

lemma enum_map_snd_eq {α β : Type} (l : List α) (f : α → β) :
    l.enum.map (fun ic => f ic.2) = l.map f := by
  have h : (fun ic : ℕ × α => f ic.2) = f ∘ Prod.snd := rfl
  rw [h, ← List.map_map, List.enum_map_snd]

/-- C3: regenerating the grid at any angle and then again at angle 0 from the
same retained original polygon yields exactly the point list of a single
angle-0 generation: the handler reads `originalPolygon` (which it preserves),
never the previously generated grid, so re-rotation is idempotent. -/
theorem C3_rotation_idempotent (rotatePt : ℚ → Pt → Pt → Pt)
    (distM : Pt → Pt → ℚ) (settings : FlightSettings ℚ) (r : Route ℚ)
    (P : List (GeoPt ℚ)) (angle : ℚ)
    (hP : r.originalPolygon = some P) (hL : r.locked = false) :
    ((rotateRoute rotatePt distM settings 0
          (rotateRoute rotatePt distM settings angle r)).waypoints.map
        fun w => (w.latitude, w.longitude))
      = (generateGridWaypoints rotatePt distM P settings 0).map
          fun p => (p.lat, p.lng) := by
  unfold rotateRoute
  rw [hL]
  simp only [Bool.false_eq_true, if_false, hP]
  rw [List.map_map]
  exact enum_map_snd_eq (generateGridWaypoints rotatePt distM P settings 0)
    (fun p : GeoPt ℚ => (p.lat, p.lng))

/-- Witness for C3: a concrete unlocked route carrying a triangle as its
original polygon. -/
theorem C3_rotation_idempotent_witness :
    (Route.mk "r1" "route" [] "red" false ⟨0, 0⟩ (some 45)
        (some [⟨0, 0⟩, ⟨0, 1⟩, ⟨1, 0⟩])).originalPolygon
        = some [⟨0, 0⟩, ⟨0, 1⟩, ⟨1, 0⟩]
      ∧ (Route.mk "r1" "route" [] "red" false ⟨0, 0⟩ (some 45)
          (some [⟨0, 0⟩, ⟨0, 1⟩, ⟨1, 0⟩])).locked = false
      ∧ ((rotateRoute rotIdQ distZero sampleSettings 0
            (rotateRoute rotIdQ distZero sampleSettings 45
              (Route.mk "r1" "route" [] "red" false ⟨0, 0⟩ (some 45)
                (some [⟨0, 0⟩, ⟨0, 1⟩, ⟨1, 0⟩])))).waypoints.map
          fun w => (w.latitude, w.longitude))
        = (generateGridWaypoints rotIdQ distZero [⟨0, 0⟩, ⟨0, 1⟩, ⟨1, 0⟩]
              sampleSettings 0).map fun p => (p.lat, p.lng) :=
  ⟨rfl, rfl, C3_rotation_idempotent rotIdQ distZero sampleSettings _ _ 45 rfl rfl⟩

/-- A nonempty input polygon never produces an empty output: every return
path of the generator yields either the input list, its value-copy, or a
nonempty grid. -/
lemma generateGridWaypoints_ne_nil (rotatePt : ℚ → Pt → Pt → Pt)
    (distM : Pt → Pt → ℚ) (polygonCoords : List (GeoPt ℚ))
    (s : FlightSettings ℚ) (angle : ℚ) (hpoly : polygonCoords ≠ []) :
    generateGridWaypoints rotatePt distM polygonCoords s angle ≠ [] := by
  unfold generateGridWaypoints
  dsimp only
  split_ifs with h1 h2 h3
  · exact hpoly
  · exact hpoly
  · simpa using hpoly
  · simpa using h3

/-- The square lng, lat ∈ [0,2] used by the cross-hatch counterexample. -/
def sq2 : List (GeoPt ℚ) := [⟨0, 0⟩, ⟨0, 2⟩, ⟨2, 2⟩, ⟨2, 0⟩]

/-- C4 (as amended): the `mappingPattern` selector declared in
FlightSettings is never read by the generator — the scan-line pass runs
exactly once at the requested angle, and the output is identical for
'parallel' and 'crosshatch'. -/
theorem C4_pattern_never_read (rotatePt : ℚ → Pt → Pt → Pt)
    (distM : Pt → Pt → ℚ) (polygonCoords : List (GeoPt ℚ))
    (s : FlightSettings ℚ) (angle : ℚ) (pat : MappingPattern) :
    generateGridWaypoints rotatePt distM polygonCoords
        { s with mappingPattern := pat } angle
      = generateGridWaypoints rotatePt distM polygonCoords s angle := by
  cases s
  rfl

/-- Counterexample to C4 as stated: with the cross-hatch selector on a
concrete square, the output is not the concatenation of the pass at 0° with
the pass at 90° — the second pass is nonempty, yet the generator emits only
the single 0° pass. -/
theorem C4_counterexample :
    generateGridWaypoints rotQ90 distZero sq2 sampleSettingsCross 0
      ≠ generateGridWaypoints rotQ90 distZero sq2 sampleSettingsCross 0
        ++ generateGridWaypoints rotQ90 distZero sq2 sampleSettingsCross 90 := by
  intro hcon
  have h90 : generateGridWaypoints rotQ90 distZero sq2 sampleSettingsCross 90 ≠ [] :=
    generateGridWaypoints_ne_nil rotQ90 distZero sq2 sampleSettingsCross 90
      (by simp [sq2])
  have hlen := congrArg List.length hcon
  rw [List.length_append] at hlen
  have : (generateGridWaypoints rotQ90 distZero sq2 sampleSettingsCross 90).length = 0 := by
    omega
  exact h90 (List.length_eq_zero.mp this)

/-! ## Geodesy primitives (geometryService.ts lines 6-89), over ℝ -/

/-- `toRad` (geometryService.ts line 6). -/
noncomputable def toRad (deg : ℝ) : ℝ := deg * Real.pi / 180

/-- `toDeg` (geometryService.ts line 11). -/
noncomputable def toDeg (rad : ℝ) : ℝ := rad * 180 / Real.pi

/-- `Math.atan2 y x`, modelled as the argument of the complex number x + y i
(both agree on every quadrant and axis, with value in (−π, π]). -/
noncomputable def atan2 (y x : ℝ) : ℝ := Complex.arg (⟨x, y⟩ : ℂ)

/-- The JavaScript remainder `a % n`.  JavaScript truncates the quotient
toward zero; for the nonnegative dividends produced by the embedded code this
coincides with the flooring form used here. -/
noncomputable def jsMod (a n : ℝ) : ℝ := a - n * ⌊a / n⌋

/-- `calculateBearing` (geometryService.ts lines 17-29). -/
noncomputable def calculateBearing (lat1 lon1 lat2 lon2 : ℝ) : ℝ :=
  let dLon := toRad (lon2 - lon1)
  let lat1Rad := toRad lat1
  let lat2Rad := toRad lat2
  let y := Real.sin dLon * Real.cos lat2Rad
  let x := Real.cos lat1Rad * Real.sin lat2Rad -
    Real.sin lat1Rad * Real.cos lat2Rad * Real.cos dLon
  let brng := toDeg (atan2 y x)
  jsMod (brng + 360) 360

/-- `computeDestinationPoint` (geometryService.ts lines 34-51); the result is
the pair (lat, lng). -/
noncomputable def computeDestinationPoint (lat lon distanceMeters bearing : ℝ) : ℝ × ℝ :=
  let R : ℝ := 6371000
  let angularDist := distanceMeters / R
  let bearingRad := toRad bearing
  let latRad := toRad lat
  let lonRad := toRad lon
  let destLatRad := Real.arcsin (Real.sin latRad * Real.cos angularDist +
    Real.cos latRad * Real.sin angularDist * Real.cos bearingRad)
  let destLonRad := lonRad + atan2
    (Real.sin bearingRad * Real.sin angularDist * Real.cos latRad)
    (Real.cos angularDist - Real.sin latRad * Real.sin destLatRad)
  (toDeg destLatRad, toDeg destLonRad)

/-- `calculateDistance` (haversine, geometryService.ts lines 76-89). -/
noncomputable def calculateDistance (lat1 lon1 lat2 lon2 : ℝ) : ℝ :=
  let R : ℝ := 6371000
  let phi1 := toRad lat1
  let phi2 := toRad lat2
  let deltaPhi := toRad (lat2 - lat1)
  let deltaLambda := toRad (lon2 - lon1)
  let a := Real.sin (deltaPhi / 2) * Real.sin (deltaPhi / 2) +
    Real.cos phi1 * Real.cos phi2 *
      (Real.sin (deltaLambda / 2) * Real.sin (deltaLambda / 2))
  let c := 2 * atan2 (Real.sqrt a) (Real.sqrt (1 - a))
  R * c

lemma jsMod_mem_Ico (a n : ℝ) (hn : 0 < n) : jsMod a n ∈ Set.Ico 0 n := by
  constructor
  · have h := Int.sub_one_lt_floor (a / n)
    have hle : (⌊a / n⌋ : ℝ) ≤ a / n := Int.floor_le (a / n)
    have : n * (⌊a / n⌋ : ℝ) ≤ n * (a / n) := by
      exact mul_le_mul_of_nonneg_left hle hn.le
    rw [mul_div_cancel₀ a hn.ne.symm] at this
    simpa [jsMod] using this
  · have h : a / n - 1 < ⌊a / n⌋ := Int.sub_one_lt_floor (a / n)
    have : n * (a / n - 1) < n * (⌊a / n⌋ : ℝ) :=
      mul_lt_mul_of_pos_left h hn
    rw [mul_sub, mul_div_cancel₀ a hn.ne.symm, mul_one] at this
    simp only [jsMod]
    linarith

/-- C6: for every pair of input points, `calculateBearing` lands in
[0, 360): the atan2-based bearing is normalized by the `(brng + 360) % 360`
step into that half-open interval. -/
theorem C6_bearing_range (lat1 lon1 lat2 lon2 : ℝ) :
    calculateBearing lat1 lon1 lat2 lon2 ∈ Set.Ico 0 360 := by
  unfold calculateBearing
  exact jsMod_mem_Ico _ 360 (by norm_num)

lemma toRad_toDeg (x : ℝ) : toRad (toDeg x) = x := by
  unfold toRad toDeg
  field_simp

lemma toDeg_toRad (x : ℝ) : toDeg (toRad x) = x := by
  unfold toRad toDeg
  field_simp

lemma toRad_sub (x y : ℝ) : toRad (x - y) = toRad x - toRad y := by
  unfold toRad
  ring

lemma jsMod_add_int_mul (x : ℝ) (k : ℤ) : jsMod (x + 360 * k) 360 = jsMod x 360 := by
  unfold jsMod
  have h : (x + 360 * k) / 360 = x / 360 + k := by
    field_simp
    ring
  rw [h, Int.floor_add_int]
  push_cast
  ring

lemma sin_half_sq (x : ℝ) : Real.sin (x / 2) ^ 2 = (1 - Real.cos x) / 2 := by
  rw [Real.sin_sq_eq_half_sub, show 2 * (x / 2) = x by ring]
  ring

/-- Complement identity: 1 − s² splits into two squares, so |s| ≤ 1. -/
lemma destS_decomp (p1 dl th : ℝ) :
    (Real.sin p1 * Real.cos dl + Real.cos p1 * Real.sin dl * Real.cos th) ^ 2
      + (Real.sin p1 * Real.sin dl * Real.cos th - Real.cos p1 * Real.cos dl) ^ 2
      + (Real.sin dl * Real.sin th) ^ 2 = 1 := by
  linear_combination
    (Real.cos dl ^ 2 + Real.sin dl ^ 2 * Real.cos th ^ 2) * Real.sin_sq_add_cos_sq p1
      + Real.sin_sq_add_cos_sq dl + Real.sin dl ^ 2 * Real.sin_sq_add_cos_sq th

/-- The argument of the arcsine in the destination formula is bounded by one
in absolute value. -/
lemma destS_sq_le_one (p1 dl th : ℝ) :
    (Real.sin p1 * Real.cos dl + Real.cos p1 * Real.sin dl * Real.cos th) ^ 2 ≤ 1 := by
  have h := destS_decomp p1 dl th
  nlinarith [sq_nonneg (Real.sin p1 * Real.sin dl * Real.cos th - Real.cos p1 * Real.cos dl),
    sq_nonneg (Real.sin dl * Real.sin th)]

/-- Norm identity for the longitude atan2 arguments in the destination
formula: X² + Y² = cos²φ1 (1 − s²). -/
lemma dest_XY_norm (p1 dl th : ℝ) :
    (Real.cos dl - Real.sin p1 *
        (Real.sin p1 * Real.cos dl + Real.cos p1 * Real.sin dl * Real.cos th)) ^ 2
      + (Real.sin th * Real.sin dl * Real.cos p1) ^ 2
      = Real.cos p1 ^ 2 *
        (1 - (Real.sin p1 * Real.cos dl + Real.cos p1 * Real.sin dl * Real.cos th) ^ 2) := by
  linear_combination
    (Real.cos p1 ^ 2 * (Real.cos dl ^ 2 + Real.sin dl ^ 2 * Real.cos th ^ 2)
        - 2 * Real.cos p1 * Real.cos dl *
          (Real.cos p1 * Real.cos dl - Real.sin p1 * Real.sin dl * Real.cos th)
        - Real.cos dl ^ 2 * (1 - Real.sin p1 ^ 2 - Real.cos p1 ^ 2))
      * Real.sin_sq_add_cos_sq p1
    + Real.cos p1 ^ 2 * Real.sin_sq_add_cos_sq dl
    + Real.cos p1 ^ 2 * Real.sin dl ^ 2 * Real.sin_sq_add_cos_sq th

/-- Abstract form of the law-of-cosines recovery: if the atan2 arguments
satisfy the norm identity, the composed cosine reproduces `cdl`. -/
lemma cos_central_abstract (sp1 cp1 cdl s X Y c2 : ℝ)
    (hcp : 0 ≤ cp1) (hc2 : 0 ≤ c2)
    (hX : X = cdl - sp1 * s)
    (hnorm : X ^ 2 + Y ^ 2 = (cp1 * c2) ^ 2) :
    sp1 * s + cp1 * c2 * Real.cos (atan2 Y X) = cdl := by
  rcases eq_or_lt_of_le (mul_nonneg hcp hc2) with hr0 | hrpos
  · have hXY0 : X ^ 2 + Y ^ 2 = 0 := by rw [hnorm, ← hr0]; ring
    have hX0 : X = 0 := by nlinarith [sq_nonneg X, sq_nonneg Y]
    have hcdl : cdl = sp1 * s := by rw [hX] at hX0; linarith
    rw [← hr0, hcdl]; ring
  · have habs : Complex.abs ⟨X, Y⟩ = cp1 * c2 := by
      rw [Complex.abs_apply, Complex.normSq_mk,
        show X * X + Y * Y = X ^ 2 + Y ^ 2 by ring, hnorm, Real.sqrt_sq hrpos.le]
    have hzne : (⟨X, Y⟩ : ℂ) ≠ 0 := by
      intro hcon
      rw [hcon] at habs
      simp only [map_zero] at habs
      exact absurd habs.symm (ne_of_gt hrpos)
    have hcarg : Real.cos (atan2 Y X) = X / (cp1 * c2) := by
      rw [atan2, Complex.cos_arg hzne, habs]
    rw [hcarg, mul_comm (cp1 * c2), div_mul_cancel₀ X (ne_of_gt hrpos), hX]
    ring

/-- Core identity behind the haversine round-trip, in the exact shape the
destination point produces: the spherical law of cosines for the pair
(origin, destination) reproduces `cos δ`. -/
lemma dest_cos_central (p1 dl th : ℝ) (hcos : 0 ≤ Real.cos p1) :
    Real.sin p1 * Real.sin (Real.arcsin
        (Real.sin p1 * Real.cos dl + Real.cos p1 * Real.sin dl * Real.cos th))
      + Real.cos p1 * Real.cos (Real.arcsin
          (Real.sin p1 * Real.cos dl + Real.cos p1 * Real.sin dl * Real.cos th))
        * Real.cos (atan2 (Real.sin th * Real.sin dl * Real.cos p1)
            (Real.cos dl - Real.sin p1 * Real.sin (Real.arcsin
              (Real.sin p1 * Real.cos dl + Real.cos p1 * Real.sin dl * Real.cos th))))
      = Real.cos dl := by
  have hs2 : (Real.sin p1 * Real.cos dl + Real.cos p1 * Real.sin dl * Real.cos th) ^ 2 ≤ 1 :=
    destS_sq_le_one p1 dl th
  have hs1 : -1 ≤ Real.sin p1 * Real.cos dl + Real.cos p1 * Real.sin dl * Real.cos th := by
    nlinarith
  have hs1' : Real.sin p1 * Real.cos dl + Real.cos p1 * Real.sin dl * Real.cos th ≤ 1 := by
    nlinarith
  rw [Real.sin_arcsin hs1 hs1']
  have hc2nn : 0 ≤ Real.cos (Real.arcsin
      (Real.sin p1 * Real.cos dl + Real.cos p1 * Real.sin dl * Real.cos th)) := by
    rw [Real.cos_arcsin]
    exact Real.sqrt_nonneg _
  have hc2sq : Real.cos (Real.arcsin
        (Real.sin p1 * Real.cos dl + Real.cos p1 * Real.sin dl * Real.cos th)) ^ 2
      = 1 - (Real.sin p1 * Real.cos dl + Real.cos p1 * Real.sin dl * Real.cos th) ^ 2 := by
    rw [Real.cos_arcsin, Real.sq_sqrt (by nlinarith)]
  apply cos_central_abstract _ _ _ _ _ _ _ hcos hc2nn rfl
  have hexp : (Real.cos p1 * Real.cos (Real.arcsin
        (Real.sin p1 * Real.cos dl + Real.cos p1 * Real.sin dl * Real.cos th))) ^ 2
      = Real.cos p1 ^ 2 *
        (1 - (Real.sin p1 * Real.cos dl + Real.cos p1 * Real.sin dl * Real.cos th) ^ 2) := by
    rw [mul_pow, hc2sq]
  rw [hexp]
  exact dest_XY_norm p1 dl th

lemma sin_half_sq' (x : ℝ) : Real.sin (x / 2) * Real.sin (x / 2) = (1 - Real.cos x) / 2 := by
  rw [← pow_two]
  exact sin_half_sq x

lemma cos_half_sq (x : ℝ) : Real.cos (x / 2) ^ 2 = (1 + Real.cos x) / 2 := by
  rw [Real.cos_sq, show 2 * (x / 2) = x by ring]
  ring

lemma atan2_sin_cos (t : ℝ) (h1 : -Real.pi < t) (h2 : t ≤ Real.pi) :
    atan2 (Real.sin t) (Real.cos t) = t := by
  rw [atan2]
  have hmk : (⟨Real.cos t, Real.sin t⟩ : ℂ) = Complex.cos t + Complex.sin t * Complex.I := by
    rw [← Complex.ofReal_cos, ← Complex.ofReal_sin]
    exact Complex.mk_eq_add_mul_I _ _
  rw [hmk]
  exact Complex.arg_cos_add_sin_mul_I ⟨h1, h2⟩

/-- Distance round-trip: the haversine distance from A to the destination
point at distance d recovers d exactly, for 0 ≤ d ≤ πR and |lat| ≤ 90. -/
lemma calculateDistance_roundtrip (lat lon d b : ℝ)
    (h0 : 0 ≤ d) (h1 : d ≤ Real.pi * 6371000) (h2 : |lat| ≤ 90) :
    calculateDistance lat lon (computeDestinationPoint lat lon d b).1
      (computeDestinationPoint lat lon d b).2 = d := by
  have hπ : (0 : ℝ) < Real.pi := Real.pi_pos
  have hdl0 : 0 ≤ d / 6371000 := by positivity
  have hdlπ : d / 6371000 ≤ Real.pi := by
    rw [div_le_iff₀ (by norm_num : (0:ℝ) < 6371000)]
    linarith
  have hp1 : |toRad lat| ≤ Real.pi / 2 := by
    rw [toRad, abs_div, abs_mul]
    rw [abs_of_nonneg hπ.le, abs_of_nonneg (by norm_num : (0:ℝ) ≤ 180)]
    rw [div_le_div_iff₀ (by norm_num) (by norm_num : (0:ℝ) < 2)]
    nlinarith [abs_nonneg lat]
  have hcos1 : 0 ≤ Real.cos (toRad lat) := by
    rcases abs_le.mp hp1 with ⟨ha, hb⟩
    exact Real.cos_nonneg_of_mem_Icc ⟨ha, hb⟩
  unfold computeDestinationPoint calculateDistance
  dsimp only
  rw [toRad_sub, toRad_sub, toRad_toDeg, toRad_toDeg]
  rw [sin_half_sq', sin_half_sq']
  rw [show toRad lon + atan2 (Real.sin (toRad b) * Real.sin (d / 6371000) * Real.cos (toRad lat))
        (Real.cos (d / 6371000) - Real.sin (toRad lat) * Real.sin (Real.arcsin
          (Real.sin (toRad lat) * Real.cos (d / 6371000) +
            Real.cos (toRad lat) * Real.sin (d / 6371000) * Real.cos (toRad b))))
      - toRad lon
      = atan2 (Real.sin (toRad b) * Real.sin (d / 6371000) * Real.cos (toRad lat))
        (Real.cos (d / 6371000) - Real.sin (toRad lat) * Real.sin (Real.arcsin
          (Real.sin (toRad lat) * Real.cos (d / 6371000) +
            Real.cos (toRad lat) * Real.sin (d / 6371000) * Real.cos (toRad b)))) by ring]
  rw [Real.cos_sub]
  have hkey := dest_cos_central (toRad lat) (d / 6371000) (toRad b) hcos1
  have ha : (1 - (Real.cos (Real.arcsin
        (Real.sin (toRad lat) * Real.cos (d / 6371000) +
          Real.cos (toRad lat) * Real.sin (d / 6371000) * Real.cos (toRad b)))
        * Real.cos (toRad lat)
      + Real.sin (Real.arcsin
          (Real.sin (toRad lat) * Real.cos (d / 6371000) +
            Real.cos (toRad lat) * Real.sin (d / 6371000) * Real.cos (toRad b)))
        * Real.sin (toRad lat))) / 2
      + Real.cos (toRad lat) * Real.cos (Real.arcsin
          (Real.sin (toRad lat) * Real.cos (d / 6371000) +
            Real.cos (toRad lat) * Real.sin (d / 6371000) * Real.cos (toRad b)))
        * ((1 - Real.cos (atan2
            (Real.sin (toRad b) * Real.sin (d / 6371000) * Real.cos (toRad lat))
            (Real.cos (d / 6371000) - Real.sin (toRad lat) * Real.sin (Real.arcsin
              (Real.sin (toRad lat) * Real.cos (d / 6371000) +
                Real.cos (toRad lat) * Real.sin (d / 6371000) * Real.cos (toRad b)))))) / 2)
      = (1 - Real.cos (d / 6371000)) / 2 := by
    nlinarith [hkey]
  rw [ha]
  have hs2 : (0 : ℝ) ≤ Real.sin (d / 6371000 / 2) := by
    apply Real.sin_nonneg_of_nonneg_of_le_pi
    · positivity
    · linarith
  have hc2 : (0 : ℝ) ≤ Real.cos (d / 6371000 / 2) := by
    apply Real.cos_nonneg_of_mem_Icc
    constructor
    · linarith
    · linarith
  rw [show ((1 : ℝ) - Real.cos (d / 6371000)) / 2 = Real.sin (d / 6371000 / 2) ^ 2 from
      (sin_half_sq _).symm]
  rw [show (1 : ℝ) - Real.sin (d / 6371000 / 2) ^ 2 = Real.cos (d / 6371000 / 2) ^ 2 by
      nlinarith [Real.sin_sq_add_cos_sq (d / 6371000 / 2)]]
  rw [Real.sqrt_sq hs2, Real.sqrt_sq hc2]
  rw [atan2_sin_cos (d / 6371000 / 2) (by linarith) (by linarith)]
  field_simp
  ring

/-- The argument of (cos t, sin t) is t up to a whole number of turns. -/
lemma arg_cos_sin_exists (t : ℝ) :
    ∃ n : ℤ, Complex.arg ⟨Real.cos t, Real.sin t⟩ = t + 2 * Real.pi * n := by
  have hmk : (⟨Real.cos t, Real.sin t⟩ : ℂ) = Complex.cos t + Complex.sin t * Complex.I := by
    rw [← Complex.ofReal_cos, ← Complex.ofReal_sin]
    exact Complex.mk_eq_add_mul_I _ _
  have hexp : Complex.exp ((Complex.arg ⟨Real.cos t, Real.sin t⟩ : ℂ) * Complex.I)
      = Complex.exp ((t : ℂ) * Complex.I) := by
    rw [Complex.exp_mul_I, Complex.exp_mul_I]
    have habs1 : Complex.abs ⟨Real.cos t, Real.sin t⟩ = 1 := by
      rw [Complex.abs_apply, Complex.normSq_mk]
      rw [show Real.cos t * Real.cos t + Real.sin t * Real.sin t = 1 by
        nlinarith [Real.sin_sq_add_cos_sq t]]
      exact Real.sqrt_one
    have hzne : (⟨Real.cos t, Real.sin t⟩ : ℂ) ≠ 0 := by
      intro hcon
      rw [hcon] at habs1
      simp at habs1
    have hcosA : Real.cos (Complex.arg ⟨Real.cos t, Real.sin t⟩) = Real.cos t := by
      rw [Complex.cos_arg hzne, habs1]
      simp
    have hsinA : Real.sin (Complex.arg ⟨Real.cos t, Real.sin t⟩) = Real.sin t := by
      rw [Complex.sin_arg, habs1]
      simp
    rw [← Complex.ofReal_cos, ← Complex.ofReal_sin, hcosA, hsinA,
      Complex.ofReal_cos, Complex.ofReal_sin]
  obtain ⟨n, hn⟩ := Complex.exp_eq_exp_iff_exists_int.mp hexp
  refine ⟨n, ?_⟩
  have hfac : ((Complex.arg ⟨Real.cos t, Real.sin t⟩ : ℝ) : ℂ)
      = (t : ℂ) + 2 * Real.pi * n := by
    have hI : ((Complex.arg ⟨Real.cos t, Real.sin t⟩ : ℝ) : ℂ) * Complex.I
        = ((t : ℂ) + 2 * Real.pi * n) * Complex.I := by
      rw [hn]
      ring
    exact mul_right_cancel₀ Complex.I_ne_zero hI
  exact_mod_cast hfac

/-- The bearing formula evaluated at (origin, destination) reduces to the
pair (sin δ sin θ, sin δ cos θ): the spherical sine and analogue rules. -/
lemma bearing_args (p1 dl th : ℝ) (hc1 : 0 < Real.cos p1)
    (hc2 : 0 < Real.cos (Real.arcsin
      (Real.sin p1 * Real.cos dl + Real.cos p1 * Real.sin dl * Real.cos th))) :
    Real.sin (atan2 (Real.sin th * Real.sin dl * Real.cos p1)
          (Real.cos dl - Real.sin p1 *
            (Real.sin p1 * Real.cos dl + Real.cos p1 * Real.sin dl * Real.cos th)))
        * Real.cos (Real.arcsin
          (Real.sin p1 * Real.cos dl + Real.cos p1 * Real.sin dl * Real.cos th))
      = Real.sin dl * Real.sin th
    ∧ Real.cos p1 *
          (Real.sin p1 * Real.cos dl + Real.cos p1 * Real.sin dl * Real.cos th)
        - Real.sin p1 * Real.cos (Real.arcsin
            (Real.sin p1 * Real.cos dl + Real.cos p1 * Real.sin dl * Real.cos th))
          * Real.cos (atan2 (Real.sin th * Real.sin dl * Real.cos p1)
            (Real.cos dl - Real.sin p1 *
              (Real.sin p1 * Real.cos dl + Real.cos p1 * Real.sin dl * Real.cos th)))
      = Real.sin dl * Real.cos th := by
  have hc2sq : Real.cos (Real.arcsin
        (Real.sin p1 * Real.cos dl + Real.cos p1 * Real.sin dl * Real.cos th)) ^ 2
      = 1 - (Real.sin p1 * Real.cos dl + Real.cos p1 * Real.sin dl * Real.cos th) ^ 2 := by
    rw [Real.cos_arcsin, Real.sq_sqrt (by nlinarith [destS_sq_le_one p1 dl th])]
  have hnorm : (Real.cos dl - Real.sin p1 *
        (Real.sin p1 * Real.cos dl + Real.cos p1 * Real.sin dl * Real.cos th)) ^ 2
      + (Real.sin th * Real.sin dl * Real.cos p1) ^ 2
      = (Real.cos p1 * Real.cos (Real.arcsin
          (Real.sin p1 * Real.cos dl + Real.cos p1 * Real.sin dl * Real.cos th))) ^ 2 := by
    have hexp : (Real.cos p1 * Real.cos (Real.arcsin
          (Real.sin p1 * Real.cos dl + Real.cos p1 * Real.sin dl * Real.cos th))) ^ 2
        = Real.cos p1 ^ 2 *
          (1 - (Real.sin p1 * Real.cos dl + Real.cos p1 * Real.sin dl * Real.cos th) ^ 2) := by
      rw [mul_pow, hc2sq]
    rw [hexp]
    exact dest_XY_norm p1 dl th
  have hrpos : 0 < Real.cos p1 * Real.cos (Real.arcsin
      (Real.sin p1 * Real.cos dl + Real.cos p1 * Real.sin dl * Real.cos th)) :=
    mul_pos hc1 hc2
  have habs : Complex.abs ⟨Real.cos dl - Real.sin p1 *
        (Real.sin p1 * Real.cos dl + Real.cos p1 * Real.sin dl * Real.cos th),
        Real.sin th * Real.sin dl * Real.cos p1⟩
      = Real.cos p1 * Real.cos (Real.arcsin
          (Real.sin p1 * Real.cos dl + Real.cos p1 * Real.sin dl * Real.cos th)) := by
    rw [Complex.abs_apply, Complex.normSq_mk]
    rw [show ∀ X Y : ℝ, X * X + Y * Y = X ^ 2 + Y ^ 2 from fun X Y => by ring]
    rw [hnorm, Real.sqrt_sq hrpos.le]
  have hzne : (⟨Real.cos dl - Real.sin p1 *
        (Real.sin p1 * Real.cos dl + Real.cos p1 * Real.sin dl * Real.cos th),
        Real.sin th * Real.sin dl * Real.cos p1⟩ : ℂ) ≠ 0 := by
    intro hcon
    rw [hcon] at habs
    simp only [map_zero] at habs
    exact absurd habs.symm (ne_of_gt hrpos)
  have hsinarg := Complex.sin_arg (⟨Real.cos dl - Real.sin p1 *
      (Real.sin p1 * Real.cos dl + Real.cos p1 * Real.sin dl * Real.cos th),
      Real.sin th * Real.sin dl * Real.cos p1⟩ : ℂ)
  have hcosarg := Complex.cos_arg hzne
  rw [habs] at hsinarg hcosarg
  dsimp only at hsinarg hcosarg
  simp only [atan2]
  constructor
  · rw [hsinarg]
    field_simp [ne_of_gt hc1, ne_of_gt hc2]
    ring
  · rw [hcosarg]
    field_simp [ne_of_gt hc1, ne_of_gt hc2]
    linear_combination (Real.cos (Real.arcsin
        (Real.sin p1 * Real.cos dl + Real.cos p1 * Real.sin dl * Real.cos th))
      * (Real.sin p1 * Real.cos dl + Real.cos p1 * Real.sin dl * Real.cos th))
      * Real.sin_sq_add_cos_sq p1

/-- Bearing round-trip: the initial bearing from A to the destination point
reproduces b modulo 360, provided 0 < d < πR, |lat| < 90, and the
destination is not a pole. -/
lemma calculateBearing_roundtrip (lat lon d b : ℝ)
    (hd0 : 0 < d) (hdpi : d < Real.pi * 6371000) (hlat : |lat| < 90)
    (hpole : Real.cos (toRad (computeDestinationPoint lat lon d b).1) ≠ 0) :
    calculateBearing lat lon (computeDestinationPoint lat lon d b).1
      (computeDestinationPoint lat lon d b).2 = jsMod b 360 := by
  have hπ : (0 : ℝ) < Real.pi := Real.pi_pos
  have hp1 : |toRad lat| < Real.pi / 2 := by
    rw [toRad, abs_div, abs_mul]
    rw [abs_of_nonneg hπ.le, abs_of_nonneg (by norm_num : (0:ℝ) ≤ 180)]
    rw [div_lt_div_iff₀ (by norm_num) (by norm_num : (0:ℝ) < 2)]
    nlinarith [abs_nonneg lat]
  have hc1 : 0 < Real.cos (toRad lat) := by
    rcases abs_lt.mp hp1 with ⟨ha, hb⟩
    exact Real.cos_pos_of_mem_Ioo ⟨ha, hb⟩
  have hdl0 : 0 < d / 6371000 := by positivity
  have hdlpi : d / 6371000 < Real.pi := by
    rw [div_lt_iff₀ (by norm_num : (0:ℝ) < 6371000)]
    linarith
  have hsindl : 0 < Real.sin (d / 6371000) :=
    Real.sin_pos_of_pos_of_lt_pi hdl0 hdlpi
  have hs2 : (Real.sin (toRad lat) * Real.cos (d / 6371000) +
      Real.cos (toRad lat) * Real.sin (d / 6371000) * Real.cos (toRad b)) ^ 2 ≤ 1 :=
    destS_sq_le_one (toRad lat) (d / 6371000) (toRad b)
  have hs1 : -1 ≤ Real.sin (toRad lat) * Real.cos (d / 6371000) +
      Real.cos (toRad lat) * Real.sin (d / 6371000) * Real.cos (toRad b) := by nlinarith
  have hs1' : Real.sin (toRad lat) * Real.cos (d / 6371000) +
      Real.cos (toRad lat) * Real.sin (d / 6371000) * Real.cos (toRad b) ≤ 1 := by nlinarith
  unfold computeDestinationPoint at hpole
  dsimp only at hpole
  rw [toRad_toDeg] at hpole
  have hc2pos : 0 < Real.cos (Real.arcsin
      (Real.sin (toRad lat) * Real.cos (d / 6371000) +
        Real.cos (toRad lat) * Real.sin (d / 6371000) * Real.cos (toRad b))) := by
    have hge : (0:ℝ) ≤ Real.cos (Real.arcsin
        (Real.sin (toRad lat) * Real.cos (d / 6371000) +
          Real.cos (toRad lat) * Real.sin (d / 6371000) * Real.cos (toRad b))) := by
      rw [Real.cos_arcsin]
      exact Real.sqrt_nonneg _
    exact lt_of_le_of_ne hge (Ne.symm hpole)
  unfold calculateBearing computeDestinationPoint
  dsimp only
  rw [toRad_sub, toRad_toDeg, toRad_toDeg]
  rw [Real.sin_arcsin hs1 hs1']
  rw [show toRad lon + atan2 (Real.sin (toRad b) * Real.sin (d / 6371000) * Real.cos (toRad lat))
        (Real.cos (d / 6371000) - Real.sin (toRad lat) *
          (Real.sin (toRad lat) * Real.cos (d / 6371000) +
            Real.cos (toRad lat) * Real.sin (d / 6371000) * Real.cos (toRad b)))
      - toRad lon
      = atan2 (Real.sin (toRad b) * Real.sin (d / 6371000) * Real.cos (toRad lat))
        (Real.cos (d / 6371000) - Real.sin (toRad lat) *
          (Real.sin (toRad lat) * Real.cos (d / 6371000) +
            Real.cos (toRad lat) * Real.sin (d / 6371000) * Real.cos (toRad b))) by ring]
  obtain ⟨hyb, hxb⟩ := bearing_args (toRad lat) (d / 6371000) (toRad b) hc1 hc2pos
  rw [hyb, hxb]
  have hfac : (⟨Real.sin (d / 6371000) * Real.cos (toRad b),
      Real.sin (d / 6371000) * Real.sin (toRad b)⟩ : ℂ)
      = (Real.sin (d / 6371000) : ℂ) * ⟨Real.cos (toRad b), Real.sin (toRad b)⟩ := by
    apply Complex.ext
    · rw [Complex.mul_re, Complex.ofReal_re, Complex.ofReal_im]
      simp
    · rw [Complex.mul_im, Complex.ofReal_re, Complex.ofReal_im]
      simp
  rw [atan2, hfac, Complex.arg_real_mul _ hsindl]
  obtain ⟨n, hn⟩ := arg_cos_sin_exists (toRad b)
  rw [hn]
  have htd : toDeg (toRad b + 2 * Real.pi * n) = b + 360 * n := by
    unfold toDeg toRad
    field_simp
    ring
  rw [htd]
  rw [show b + 360 * (n : ℝ) + 360 = b + 360 * ((n + 1 : ℤ) : ℝ) by push_cast; ring]
  rw [jsMod_add_int_mul]

lemma atan2_zero_one : atan2 0 1 = 0 := by
  rw [atan2]
  rw [show (⟨1, 0⟩ : ℂ) = 1 from by apply Complex.ext <;> simp]
  exact Complex.arg_one

lemma toRad_zero : toRad 0 = 0 := by
  unfold toRad
  ring

lemma toDeg_zero : toDeg 0 = 0 := by
  unfold toDeg
  ring

/-- C5 (as amended).  The geodesy primitives satisfy the round-trip law, with
the quantification corrected: the distance round-trip holds exactly for
0 ≤ d ≤ πR (beyond the antipode the haversine reports the shorter great
circle arc, so the original unrestricted claim fails); the bearing round-trip
additionally requires 0 < d < πR, |lat| < 90, and a non-polar destination
(where an initial bearing exists), and returns b reduced modulo 360 into
[0, 360). -/
theorem C5_geodesy_roundtrip (lat lon d b : ℝ)
    (h0 : 0 ≤ d) (h1 : d ≤ Real.pi * 6371000) (h2 : |lat| ≤ 90) :
    calculateDistance lat lon (computeDestinationPoint lat lon d b).1
        (computeDestinationPoint lat lon d b).2 = d
    ∧ (0 < d → d < Real.pi * 6371000 → |lat| < 90 →
        Real.cos (toRad (computeDestinationPoint lat lon d b).1) ≠ 0 →
        calculateBearing lat lon (computeDestinationPoint lat lon d b).1
          (computeDestinationPoint lat lon d b).2 = jsMod b 360) :=
  ⟨calculateDistance_roundtrip lat lon d b h0 h1 h2,
   fun hd0 hdpi hlat hpole => calculateBearing_roundtrip lat lon d b hd0 hdpi hlat hpole⟩

/-- Witness for C5: due east from the origin over a quarter circumference. -/
theorem C5_geodesy_roundtrip_witness :
    (0 : ℝ) ≤ Real.pi * 6371000 / 2
    ∧ Real.pi * 6371000 / 2 ≤ Real.pi * 6371000
    ∧ |(0 : ℝ)| ≤ 90
    ∧ calculateDistance 0 0 (computeDestinationPoint 0 0 (Real.pi * 6371000 / 2) 90).1
        (computeDestinationPoint 0 0 (Real.pi * 6371000 / 2) 90).2
        = Real.pi * 6371000 / 2
    ∧ Real.cos (toRad (computeDestinationPoint 0 0 (Real.pi * 6371000 / 2) 90).1) ≠ 0
    ∧ calculateBearing 0 0 (computeDestinationPoint 0 0 (Real.pi * 6371000 / 2) 90).1
        (computeDestinationPoint 0 0 (Real.pi * 6371000 / 2) 90).2 = jsMod 90 360 := by
  have hπ : (0 : ℝ) < Real.pi := Real.pi_pos
  have hA : (0 : ℝ) ≤ Real.pi * 6371000 / 2 := by positivity
  have hB : Real.pi * 6371000 / 2 ≤ Real.pi * 6371000 := by nlinarith
  have hC : |(0 : ℝ)| ≤ 90 := by norm_num
  have hpole : Real.cos (toRad (computeDestinationPoint 0 0 (Real.pi * 6371000 / 2) 90).1) ≠ 0 := by
    unfold computeDestinationPoint
    dsimp only
    rw [toRad_zero, toRad_toDeg]
    rw [show Real.pi * 6371000 / 2 / 6371000 = Real.pi / 2 by field_simp; ring]
    rw [show toRad 90 = Real.pi / 2 from by unfold toRad; ring]
    rw [Real.cos_pi_div_two]
    norm_num [Real.arcsin_zero]
  have hmain := C5_geodesy_roundtrip 0 0 (Real.pi * 6371000 / 2) 90 hA hB hC
  refine ⟨hA, hB, hC, hmain.1, hpole, ?_⟩
  exact hmain.2 (by positivity) (by nlinarith) (by norm_num) hpole

/-- Counterexample to C5 as stated: for a full great circle d = 2πR (from the
origin, bearing 0), the distance back comes out 0, not d — the round-trip law
cannot hold for every non-negative d. -/
theorem C5_counterexample :
    calculateDistance 0 0 (computeDestinationPoint 0 0 (2 * Real.pi * 6371000) 0).1
      (computeDestinationPoint 0 0 (2 * Real.pi * 6371000) 0).2 = 0
    ∧ (1000000 : ℝ) < 2 * Real.pi * 6371000 := by
  constructor
  · have hdest : computeDestinationPoint 0 0 (2 * Real.pi * 6371000) 0 = (0, 0) := by
      unfold computeDestinationPoint
      dsimp only
      rw [toRad_zero, show (2 * Real.pi * 6371000) / 6371000 = 2 * Real.pi by field_simp]
      rw [Real.sin_two_pi, Real.cos_two_pi]
      norm_num [Real.arcsin_zero, atan2_zero_one, toDeg_zero]
    rw [hdest]
    unfold calculateDistance
    dsimp only
    rw [toRad_zero, show (0:ℝ) - 0 = 0 by ring, toRad_zero]
    norm_num [atan2_zero_one]
  · nlinarith [Real.pi_gt_three]

/-! ## GSD calculator (Calculator.tsx lines 131-134) -/

/-- Modelled from the spec: `calculateGSD` is imported from
services/geometryService by Calculator.tsx, but its definition is not among
the provided source files.  Per spec §4.4:
`gsd = (sensorDimensionMm × altitude × 100) / (focalLengthMm × imageDimensionPx)`
centimeters per pixel, with the guard that a non-positive focal length or
image dimension returns 0. -/
def calculateGSD (altitude sensorDimensionMm imageDimensionPx focalLengthMm : ℚ) : ℚ :=
  if focalLengthMm ≤ 0 ∨ imageDimensionPx ≤ 0 then 0
  else sensorDimensionMm * altitude * 100 / (focalLengthMm * imageDimensionPx)

/-- Calculator.tsx lines 131-134: the GSD is computed once per sensor axis
and the reported overall value is the larger of the two. -/
def overallGSD (altitude sensorW sensorH imageW imageH realFocal : ℚ) : ℚ :=
  max (calculateGSD altitude sensorW imageW realFocal)
    (calculateGSD altitude sensorH imageH realFocal)

/-- C7: the GSD formula, its guard, the max rule for the overall value, and
the concrete scenario: altitude 100 m, sensor width 9.84 mm, image width
8064 px, focal length 6.72 mm gives about 1.81 cm/px (between 1.81 and
1.82). -/
theorem C7_gsd (altitude s i f : ℚ) :
    (0 < f → 0 < i → calculateGSD altitude s i f = s * altitude * 100 / (f * i))
    ∧ (f ≤ 0 ∨ i ≤ 0 → calculateGSD altitude s i f = 0)
    ∧ (∀ sW sH iW iH fl : ℚ, overallGSD altitude sW sH iW iH fl
        = max (calculateGSD altitude sW iW fl) (calculateGSD altitude sH iH fl))
    ∧ 181/100 ≤ calculateGSD 100 9.84 8064 6.72
    ∧ calculateGSD 100 9.84 8064 6.72 < 182/100 := by
  refine ⟨fun hf hi => ?_, fun hguard => ?_, fun sW sH iW iH fl => rfl, ?_, ?_⟩
  · rw [calculateGSD, if_neg]
    push_neg
    exact ⟨hf, hi⟩
  · rw [calculateGSD, if_pos hguard]
  · rw [calculateGSD, if_neg (by norm_num)]
    norm_num
  · rw [calculateGSD, if_neg (by norm_num)]
    norm_num

/-- Witness for C7 at the scenario values, with both guards positive. -/
theorem C7_gsd_witness :
    (0 : ℚ) < 6.72 ∧ (0 : ℚ) < 8064
      ∧ calculateGSD 100 9.84 8064 6.72 = 9.84 * 100 * 100 / (6.72 * 8064) := by
  refine ⟨by norm_num, by norm_num, ?_⟩
  exact (C7_gsd 100 9.84 8064 6.72).1 (by norm_num) (by norm_num)

/-! ## Sweep-frustum calculator, mode (a) (Calculator.tsx lines 86-91) -/

/-- The four outputs of the gimbal-angle sweep mode. -/
structure SweepAngleResult where
  dNear : ℝ
  dFar : ℝ
  baseMinor : ℝ
  baseMajor : ℝ

/-- Calculator.tsx handleCalculate, calcMode = 'angle' (lines 77-91). -/
noncomputable def handleCalculateSweepAngle (altitude fovV fovH gimbalAngle : ℝ) :
    SweepAngleResult :=
  let fovVRad := fovV * Real.pi / 180
  let fovHRad := fovH * Real.pi / 180
  let theta := |gimbalAngle|
  let dNear := altitude * Real.tan ((90 - theta) * Real.pi / 180 - fovVRad / 2)
  let dFar := altitude * Real.tan ((90 - theta) * Real.pi / 180 + fovVRad / 2)
  ⟨dNear, dFar, 2 * dNear * Real.tan (fovHRad / 2), 2 * dFar * Real.tan (fovHRad / 2)⟩

/-- Spec §4.5 mode (a): dNear = altitude × tan(radians(90−θ) − fovV/2), with
the field of view supplied in radians. -/
noncomputable def specDNear (altitude thetaDeg fovVRad : ℝ) : ℝ :=
  altitude * Real.tan (toRad (90 - thetaDeg) - fovVRad / 2)

/-- Spec §4.5 mode (a): dFar = altitude × tan(radians(90−θ) + fovV/2). -/
noncomputable def specDFar (altitude thetaDeg fovVRad : ℝ) : ℝ :=
  altitude * Real.tan (toRad (90 - thetaDeg) + fovVRad / 2)

/-- Spec §4.5 mode (a): baseMinor = 2 × dNear × tan(fovH/2). -/
noncomputable def specBaseMinor (altitude thetaDeg fovVRad fovHRad : ℝ) : ℝ :=
  2 * specDNear altitude thetaDeg fovVRad * Real.tan (fovHRad / 2)

/-- Spec §4.5 mode (a): baseMajor = 2 × dFar × tan(fovH/2). -/
noncomputable def specBaseMajor (altitude thetaDeg fovVRad fovHRad : ℝ) : ℝ :=
  2 * specDFar altitude thetaDeg fovVRad * Real.tan (fovHRad / 2)

/-- C9: in gimbal-angle mode, the calculator code produces exactly the four
spec formulas with θ = |gimbalAngle| and both FOVs converted to radians. -/
theorem C9_sweep_angle_mode (altitude fovV fovH gimbalAngle : ℝ) :
    (handleCalculateSweepAngle altitude fovV fovH gimbalAngle).dNear
        = specDNear altitude |gimbalAngle| (toRad fovV)
    ∧ (handleCalculateSweepAngle altitude fovV fovH gimbalAngle).dFar
        = specDFar altitude |gimbalAngle| (toRad fovV)
    ∧ (handleCalculateSweepAngle altitude fovV fovH gimbalAngle).baseMinor
        = specBaseMinor altitude |gimbalAngle| (toRad fovV) (toRad fovH)
    ∧ (handleCalculateSweepAngle altitude fovV fovH gimbalAngle).baseMajor
        = specBaseMajor altitude |gimbalAngle| (toRad fovV) (toRad fovH) := by
  refine ⟨?_, ?_, ?_, ?_⟩ <;>
    simp only [handleCalculateSweepAngle, specDNear, specDFar, specBaseMinor,
      specBaseMajor, toRad]

/-! ## updateWaypointsWithBearings (geometryService.ts lines 56-71) -/

/-- `Number(bearing.toFixed(2))`: round to two decimals (the bearings
produced are nonnegative, where this flooring form matches JavaScript). -/
noncomputable def round2 (x : ℝ) : ℝ := (⌊x * 100 + 1/2⌋ : ℤ) / 100

/-- geometryService.ts lines 56-71.  The out-of-bounds accesses
`waypoints[index+1]` / `waypoints[index-1]` cannot occur in the map branch
(the early return handles lists of length ≤ 1), so the `getD` defaults are
never used. -/
noncomputable def updateWaypointsWithBearings (waypoints : List (Waypoint ℝ)) :
    List (Waypoint ℝ) :=
  if waypoints.length ≤ 1 then waypoints
  else waypoints.mapIdx fun index wp =>
    let bearing :=
      if index < waypoints.length - 1 then
        let nextWp := waypoints.getD (index + 1) wp
        calculateBearing wp.latitude wp.longitude nextWp.latitude nextWp.longitude
      else
        let prevWp := waypoints.getD (index - 1) wp
        calculateBearing prevWp.latitude prevWp.longitude wp.latitude wp.longitude
    { wp with heading := round2 bearing }

/-- C10: `updateWaypointsWithBearings` only touches the heading field — after
erasing headings, input and output lists agree (same length, same order,
every other field unchanged) — and lists of length ≤ 1 are returned entirely
unchanged. -/
theorem C10_bearings_frame (waypoints : List (Waypoint ℝ)) :
    ((updateWaypointsWithBearings waypoints).map fun w => { w with heading := 0 })
        = (waypoints.map fun w => { w with heading := 0 })
    ∧ (waypoints.length ≤ 1 → updateWaypointsWithBearings waypoints = waypoints) := by
  constructor
  · unfold updateWaypointsWithBearings
    by_cases hlen : waypoints.length ≤ 1
    · rw [if_pos hlen]
    · rw [if_neg hlen]
      rw [List.mapIdx_eq_enum_map, List.map_map]
      refine Eq.trans ?_ (enum_map_snd_eq waypoints fun w => { w with heading := (0:ℝ) })
      apply List.map_congr_left
      intro p _
      rfl
  · intro hlen
    unfold updateWaypointsWithBearings
    rw [if_pos hlen]

/-- Witness for C10: the empty list is returned unchanged. -/
theorem C10_bearings_frame_witness :
    ([] : List (Waypoint ℝ)).length ≤ 1
      ∧ updateWaypointsWithBearings ([] : List (Waypoint ℝ)) = [] :=
  ⟨by norm_num, (C10_bearings_frame []).2 (by norm_num)⟩

/-! ## Route statistics estimator (geometryService.ts lines 400-475) -/

/-- RouteStats record (src/types.ts lines 188-193). -/
structure RouteStats where
  totalDistance : ℝ
  totalTimeMinutes : ℝ
  photoCount : ℤ
  videoCount : ℤ

/-- Sum of the leg distances over consecutive waypoint pairs. -/
noncomputable def routePathLen (wps : List (Waypoint ℝ)) : ℝ :=
  ((wps.zip wps.tail).map fun p =>
    calculateDistance p.1.latitude p.1.longitude p.2.latitude p.2.longitude).sum

/-- Zero-filled real waypoint (the `getLast` default is never consulted: the
surrounding branch guarantees a nonempty list). -/
noncomputable def defaultWaypointR : Waypoint ℝ :=
  ⟨0, 0, 0, 0, 0, 0, 0, 0, 0, 0, 0, 0, 0, 0, 0, 0, 0, 0, 0, 0, 0⟩

section StatsEstimator

open scoped Classical

/-- geometryService.ts lines 400-475, `estimateRouteStats` (the version whose
per-pair action block is at lines 424-432).  `targetRouteId = none` models
the 'all' filter.  Note lines 425 and 427: a Stay action (actionType1 = 0)
adds its parameter twice, once divided by 1000 and once in full. -/
noncomputable def estimateRouteStats (routes : List (Route ℝ))
    (settings : FlightSettings ℝ) (targetRouteId : Option String) : RouteStats :=
  let routesToCalc := match targetRouteId with
    | none => routes
    | some fid => routes.filter fun r => r.id = fid
  let acc := routesToCalc.foldl (fun (acc : ℝ × ℝ × ℤ × ℤ) route =>
    match route.waypoints with
    | [] => acc
    | wp1 :: _ =>
      let pairs := route.waypoints.zip route.waypoints.tail
      let commuteDist := calculateDistance route.homePoint.lat route.homePoint.lng
        wp1.latitude wp1.longitude
      let totalDist := acc.1 + commuteDist + routePathLen route.waypoints
      let totalTime := acc.2.1 + (pairs.map fun p =>
        (if p.1.actionType1 = 0 then p.1.actionParam1 / 1000 else 0)
          + (if p.1.actionType1 = 0 then p.1.actionParam1 else 0)).sum
      let photoCount := acc.2.2.1 + (pairs.map fun p =>
        if p.1.actionType1 = 1 then (1 : ℤ) else 0).sum
      let videoCount := acc.2.2.2 + (pairs.map fun p =>
        if p.1.actionType1 = 2 then (1 : ℤ) else 0).sum
      let lastWp := route.waypoints.getLastD defaultWaypointR
      let photoCount := photoCount + (if lastWp.actionType1 = 1 then (1 : ℤ) else 0)
      let totalDist := if settings.finishAction = 1 then
          totalDist + calculateDistance lastWp.latitude lastWp.longitude
            route.homePoint.lat route.homePoint.lng
        else totalDist
      let interval := wp1.photoTimeInterval
      let photoCount := if 0 < interval then
          let speedMs := if 0 < wp1.speed then wp1.speed else settings.speedKmh / 3.6
          photoCount + ⌊routePathLen route.waypoints / speedMs / interval⌋
        else photoCount
      (totalDist, totalTime, photoCount, videoCount)) (0, 0, 0, 0)
  let speedMs := settings.speedKmh / 3.6
  let finalTime := if 0 < speedMs then acc.2.1 + acc.1 / speedMs else acc.2.1
  ⟨acc.1, finalTime / 60, acc.2.2.1, acc.2.2.2⟩

end StatsEstimator

lemma calculateDistance_self (a b : ℝ) : calculateDistance a b a b = 0 := by
  unfold calculateDistance
  dsimp only
  rw [show a - a = 0 by ring, show b - b = 0 by ring, toRad_zero]
  norm_num [atan2_zero_one, Real.sin_zero, Real.sqrt_zero, Real.sqrt_one]

/-- A two-point route hovering at one spot: the first waypoint carries a
Stay action (actionType1 = 0) with parameter 1000 seconds. -/
noncomputable def wpStayC8 : Waypoint ℝ :=
  ⟨1, 10, 20, 30, 0, 0, 0, 0, 0, 0, 1000, -1, 0, 0, 5, 0, 0, 0, 0, -1, -1⟩

/-- The closing waypoint of the Stay route (no action). -/
noncomputable def wpEndC8 : Waypoint ℝ :=
  ⟨2, 10, 20, 30, 0, 0, 0, 0, 0, -1, 0, -1, 0, 0, 5, 0, 0, 0, 0, -1, -1⟩

/-- The concrete route of the Stay-time evaluation. -/
noncomputable def routeC8 : Route ℝ :=
  ⟨"r8", "stay", [wpStayC8, wpEndC8], "blue", false, ⟨10, 20⟩, none, none⟩

/-- Settings for the Stay-time evaluation: 18 km/h = 5 m/s, no RTH. -/
noncomputable def settingsC8 : FlightSettings ℝ :=
  ⟨30, 18, 0, MappingPattern.parallel, 0, 0, ⟨0, 0⟩⟩

/-- C8 (code evaluated at the failing input): for a stationary two-point
route whose first waypoint is a Stay of 1000 s, the estimator reports
1001/60 minutes — the Stay parameter is added twice (once divided by 1000 at
line 425 and once in full at line 427), not exactly once as the claim
states, which would give 1000/60 minutes. -/
theorem C8_stay_double_counted :
    (estimateRouteStats [routeC8] settingsC8 none).totalTimeMinutes = 1001 / 60
    ∧ (1001 : ℝ) / 60 ≠ 1000 / 60 := by
  constructor
  · unfold estimateRouteStats
    simp only [List.foldl_cons, List.foldl_nil, routeC8, wpStayC8, wpEndC8, settingsC8]
    norm_num [routePathLen, calculateDistance_self, List.getLastD]
  · norm_num
